import Mathlib

/-!
Shallow embedding of the two notebooks of this repository
(`Vim2.ipynb` and `Noobai-XL-1.1_Generator.ipynb`).

Both notebooks are orchestration glue around an external diffusion
library and the PIL imaging library.  The external calls are modelled
abstractly:

* image pixel data is an abstract type `α`, and PIL's
  `Image.resize((w, h), Image.LANCZOS)` is modelled by an arbitrary
  resampling kernel `rd : α → ℤ → ℤ → Resampling → α` applied to the
  data, with the new size recorded exactly;
* a diffusion pipeline invocation is an arbitrary function from the
  pipeline state and the keyword arguments actually passed at the call
  site to an output image;
* side effects (prints, loads, device moves, saves) are recorded as an
  event trace so that ordering claims can be stated.

Machine details the notebooks rely on: Python `int()` truncates toward
zero, modelled on exact rationals by `py_int`; Python dict lookup is
modelled by association-list lookup.
-/

namespace V2

/-- Python `int()` applied to an exact rational: truncation toward zero. -/
def py_int (q : ℚ) : ℤ := q.num.tdiv q.den

/-- The only PIL resampling filter the notebooks use. -/
inductive Resampling
  | lanczos
deriving DecidableEq, Repr

/-- A PIL image: its size plus abstract pixel data. -/
structure PILImage (α : Type) where
  width : ℤ
  height : ℤ
  data : α
deriving DecidableEq, Repr

/-- PIL `image.resize((w, h), f)`: the result has exactly the requested
size, and its data is produced by the imaging library's resampling
kernel `rd` from the old data, the new size and the filter. -/
def PILImage.resize {α : Type} (rd : α → ℤ → ℤ → Resampling → α)
    (img : PILImage α) (w h : ℤ) (f : Resampling) : PILImage α :=
  ⟨w, h, rd img.data w h f⟩

/-- The four scheduler classes imported by `Vim2.ipynb`. -/
inductive SchedulerKind
  | euler
  | euler_ancestral
  | dpm
  | ddim
deriving DecidableEq, Repr

/-- A scheduler object: `X.from_config(default_scheduler_config)`, i.e.
a scheduler class applied to a configuration (abstract type `κ`). -/
structure Scheduler (κ : Type) where
  kind : SchedulerKind
  config : κ
deriving DecidableEq, Repr

/-- The keyword arguments `Vim2.ipynb`'s `generate_image` passes to
`pipe(...)`. -/
structure PipeCall where
  prompt : String
  negative_prompt : Option String
  num_inference_steps : ℕ
  guidance_scale : ℚ
  generator_seed : ℕ
  width : ℤ
  height : ℤ
deriving DecidableEq, Repr

/-- The positional/keyword arguments the Noobai notebook's
`generate_image` passes to `pipe(...)`. -/
structure NoobaiCall where
  prompt : String
  num_inference_steps : ℕ
  guidance_scale : ℚ
  height : ℤ
  width : ℤ
deriving DecidableEq, Repr

/-- Observable events of a notebook run, in program order. -/
inductive Ev
  | cudaWarn
  | cudaOk
  | loadWeights
  | toDevice (d : String)
  | deviceChosen (d : String)
  | setTokenizerLimits
  | schedAssign (kind : SchedulerKind)
  | schedWarnUnknown
  | printGenerating
  | printNegative
  | seedGen (seed : ℕ)
  | pipeInvoke (c : PipeCall)
  | noobaiSetSeed (seed : ℕ)
  | noobaiPipeInvoke (c : NoobaiCall)
  | hiresNote
  | customUpscale
  | pilResize (w h : ℤ)
  | printDone
  | imageShow
  | imageSave
deriving DecidableEq, Repr

/-- Is this event a diffusion-pipeline invocation (either notebook)? -/
def is_pipe_invoke : Ev → Bool
  | Ev.pipeInvoke _ => true
  | Ev.noobaiPipeInvoke _ => true
  | _ => false

/-- Is this event a post-processing resize (plain or custom upscaler)? -/
def is_resize_ev : Ev → Bool
  | Ev.pilResize _ _ => true
  | Ev.customUpscale => true
  | _ => false

/-- Is this event a scheduler assignment? -/
def is_sched_assign : Ev → Bool
  | Ev.schedAssign _ => true
  | _ => false

/-- Is this event a weight load? -/
def is_load_ev : Ev → Bool
  | Ev.loadWeights => true
  | _ => false

/-- The prefix of a trace strictly before the first pipeline invocation. -/
def before_generation (tr : List Ev) : List Ev :=
  tr.takeWhile (fun e => !is_pipe_invoke e)

end V2

namespace Vim2

open V2

/-- `check_cuda()`: warns when CUDA is unavailable, otherwise reports
the GPU; purely a print, it changes nothing. -/
def check_cuda (cuda_available : Bool) : List Ev :=
  if !cuda_available then [Ev.cudaWarn] else [Ev.cudaOk]

/-- The `SCHEDULERS` dictionary built by `create_scheduler_dict`:
four schedulers, each instantiated from the default pipeline
configuration `cfg`. -/
def SCHEDULERS {κ : Type} (cfg : κ) : List (String × Scheduler κ) :=
  [ ("euler", ⟨SchedulerKind.euler, cfg⟩)
  , ("euler_ancestral", ⟨SchedulerKind.euler_ancestral, cfg⟩)
  , ("dpm", ⟨SchedulerKind.dpm, cfg⟩)
  , ("ddim", ⟨SchedulerKind.ddim, cfg⟩) ]

/-- `create_scheduler_dict()`: temporarily loads the pipeline (a weight
load) to read its scheduler config, then builds the dictionary. -/
def create_scheduler_dict {κ : Type} (cfg : κ) :
    List (String × Scheduler κ) × List Ev :=
  (SCHEDULERS cfg, [Ev.loadWeights])

/-- The mutable state of a `StableDiffusionXLPipeline` object, as far as
the notebook touches it: its scheduler, the two tokenizers' max lengths,
the device it lives on, and the loaded weights (abstract type `σ`). -/
structure SDXLPipeline (κ σ : Type) where
  scheduler : Scheduler κ
  tokenizer_model_max_length : ℕ
  tokenizer_2_model_max_length : ℕ
  device : String
  weights : σ
deriving DecidableEq, Repr

/-- `set_scheduler(pipeline, scheduler_name)`: assigns the named entry
of `SCHEDULERS` to `pipeline.scheduler`; on an unknown name it prints a
warning and assigns the `"euler"` entry.  Returns the updated pipeline
and the print trace. -/
def set_scheduler {κ σ : Type} (cfg : κ) (pipeline : SDXLPipeline κ σ)
    (scheduler_name : String) : SDXLPipeline κ σ × List Ev :=
  match (SCHEDULERS cfg).lookup scheduler_name with
  | some s => ({ pipeline with scheduler := s }, [Ev.schedAssign s.kind])
  | none =>
      ({ pipeline with scheduler := ⟨SchedulerKind.euler, cfg⟩ },
       [Ev.schedWarnUnknown, Ev.schedAssign SchedulerKind.euler])

/-- `load_pipeline(model_id, scheduler_choice)`: loads the pipeline
(`loaded` is the `from_pretrained` result), moves it to `"cuda"`
unconditionally, sets both tokenizers' `model_max_length` to 1000000,
then sets the initial scheduler. -/
def load_pipeline {κ σ : Type} (cfg : κ) (loaded : SDXLPipeline κ σ)
    (scheduler_choice : String) : SDXLPipeline κ σ × List Ev :=
  let pipe0 := { loaded with device := "cuda" }
  let pipe1 := { pipe0 with tokenizer_model_max_length := 1000000 }
  let pipe2 := { pipe1 with tokenizer_2_model_max_length := 1000000 }
  let r := set_scheduler cfg pipe2 scheduler_choice
  (r.1, [Ev.loadWeights, Ev.toDevice "cuda", Ev.setTokenizerLimits] ++ r.2)

/-- `torch.Generator("cuda").manual_seed(seed)`: a fresh generator whose
state is determined by `seed` alone; the ambient global RNG state is
discarded. -/
def torch_generator_manual_seed (ambient : ℕ) (seed : ℕ) : ℕ := seed

/-- The parameters of `Vim2.ipynb`'s `generate_image`, with the source's
default values. -/
structure GenParams (α : Type) where
  prompt : String
  negative_prompt : Option String := none
  scheduler_name : String := "euler"
  num_inference_steps : ℕ := 30
  seed : ℕ := 0
  guidance_scale : ℚ := 15 / 2
  width : ℤ := 512
  height : ℤ := 512
  hires_fix : Bool := false
  hires_scale : ℚ := 2
  upscaler_func : Option (PILImage α → ℚ → PILImage α) := none

/-- The keyword arguments `generate_image` passes to `pipe(...)`,
straight from its own parameters, with the generator freshly seeded. -/
def mkCall {α : Type} (p : GenParams α) : PipeCall :=
  { prompt := p.prompt
  , negative_prompt := p.negative_prompt
  , num_inference_steps := p.num_inference_steps
  , guidance_scale := p.guidance_scale
  , generator_seed := p.seed
  , width := p.width
  , height := p.height }

/-- `generate_image(...)` of `Vim2.ipynb`.  `pipeRun` is the external
diffusion pipeline (a deterministic function of the pipeline state and
the call arguments); `rd` is PIL's resampling kernel; `ambient_rng` is
the global torch RNG state at call time; `pipe` is the module-level
pipeline the function mutates through `set_scheduler`.  Returns the
updated pipeline, the image, and the event trace. -/
def generate_image {α κ σ : Type} (rd : α → ℤ → ℤ → Resampling → α)
    (pipeRun : SDXLPipeline κ σ → PipeCall → PILImage α) (cfg : κ)
    (p : GenParams α) (pipe : SDXLPipeline κ σ) (ambient_rng : ℕ) :
    SDXLPipeline κ σ × PILImage α × List Ev :=
  let evs0 : List Ev :=
    Ev.printGenerating ::
      (if p.negative_prompt.isSome then [Ev.printNegative] else [])
  let r := set_scheduler cfg pipe p.scheduler_name
  let pipe1 := r.1
  let generator := torch_generator_manual_seed ambient_rng p.seed
  let call : PipeCall :=
    { prompt := p.prompt
    , negative_prompt := p.negative_prompt
    , num_inference_steps := p.num_inference_steps
    , guidance_scale := p.guidance_scale
    , generator_seed := generator
    , width := p.width
    , height := p.height }
  let image := pipeRun pipe1 call
  let post : PILImage α × List Ev :=
    if p.hires_fix then
      match p.upscaler_func with
      | some f => (f image p.hires_scale, [Ev.hiresNote, Ev.customUpscale])
      | none =>
          let new_width := py_int ((p.width : ℚ) * p.hires_scale)
          let new_height := py_int ((p.height : ℚ) * p.hires_scale)
          (PILImage.resize rd image new_width new_height Resampling.lanczos,
           [Ev.hiresNote, Ev.pilResize new_width new_height])
    else (image, [])
  (pipe1, post.1,
   evs0 ++ r.2 ++ [Ev.seedGen generator, Ev.pipeInvoke call]
     ++ post.2 ++ [Ev.printDone])

/-- `example_upscaler_func(image, scale_factor)`: the placeholder custom
upscaler; a plain PIL LANCZOS resize computed from the image's own size.
(It also prints a placeholder notice, which affects no state.) -/
def example_upscaler_func {α : Type} (rd : α → ℤ → ℤ → Resampling → α)
    (image : PILImage α) (scale_factor : ℚ) : PILImage α :=
  let new_width := py_int ((image.width : ℚ) * scale_factor)
  let new_height := py_int ((image.height : ℚ) * scale_factor)
  PILImage.resize rd image new_width new_height Resampling.lanczos

/-- A whole `Vim2.ipynb` run: `check_cuda()`, `create_scheduler_dict()`
(which loads a temporary pipeline), `load_pipeline(...)` with the
initial `"euler"` choice, then one `generate_image` call. -/
def run {α κ σ : Type} (rd : α → ℤ → ℤ → Resampling → α)
    (pipeRun : SDXLPipeline κ σ → PipeCall → PILImage α)
    (cuda_available : Bool) (cfg : κ) (loaded : SDXLPipeline κ σ)
    (p : GenParams α) (ambient_rng : ℕ) :
    SDXLPipeline κ σ × PILImage α × List Ev :=
  let evs0 := check_cuda cuda_available
  let sd := create_scheduler_dict cfg
  let lp := load_pipeline cfg loaded "euler"
  let g := generate_image rd pipeRun cfg p lp.1 ambient_rng
  (g.1, g.2.1, evs0 ++ sd.2 ++ lp.2 ++ g.2.2)

end Vim2

namespace Noobai

open V2

/-- The Noobai notebook's device choice:
`device = "cuda" if torch.cuda.is_available() else "cpu"`. -/
def noobai_device (cuda_available : Bool) : String :=
  if cuda_available then "cuda" else "cpu"

/-- The mutable state of the Noobai notebook's `StableDiffusionPipeline`
as far as the notebook touches it: device and loaded weights. -/
structure SDPipeline (σ : Type) where
  device : String
  weights : σ
deriving DecidableEq, Repr

/-- The global RNG states touched by `set_seed`. -/
structure RNGState where
  python_random : ℕ
  numpy_random : ℕ
  torch_manual : ℕ
  torch_cuda : ℕ
deriving DecidableEq, Repr

/-- `set_seed(seed)`: seeds `random`, `numpy`, torch's CPU generator,
and — only when CUDA is available — all torch CUDA generators. -/
def set_seed (cuda_available : Bool) (seed : ℕ) (s : RNGState) : RNGState :=
  let s1 := { s with python_random := seed }
  let s2 := { s1 with numpy_random := seed }
  let s3 := { s2 with torch_manual := seed }
  if cuda_available then { s3 with torch_cuda := seed } else s3

/-- The torch generator a pipeline call without an explicit generator
draws from: the default generator of the device the pipeline is on. -/
def relevant_torch_seed (s : RNGState) (device : String) : ℕ :=
  if device = "cuda" then s.torch_cuda else s.torch_manual

/-- The Noobai notebook's `generate_image(prompt, steps, seed,
guidance_scale, height, width)`: seeds the global RNGs, then invokes the
pipeline, which draws from the default torch generator of its device.
Returns the new RNG state, the image, and the event trace. -/
def generate_image {α σ : Type}
    (pipeRun : SDPipeline σ → NoobaiCall → ℕ → PILImage α)
    (cuda_available : Bool) (pipe : SDPipeline σ)
    (prompt : String) (steps : ℕ) (seed : ℕ) (guidance_scale : ℚ)
    (height width : ℤ) (rng : RNGState) :
    RNGState × PILImage α × List Ev :=
  let rng1 := set_seed cuda_available seed rng
  let call : NoobaiCall :=
    { prompt := prompt
    , num_inference_steps := steps
    , guidance_scale := guidance_scale
    , height := height
    , width := width }
  let image := pipeRun pipe call (relevant_torch_seed rng1 pipe.device)
  (rng1, image, [Ev.noobaiSetSeed seed, Ev.noobaiPipeInvoke call])

/-- `hires_fix(image, scale)`: reads the image's own size and returns a
LANCZOS resize to `(int(width * scale), int(height * scale))`. -/
def hires_fix {α : Type} (rd : α → ℤ → ℤ → Resampling → α)
    (image : PILImage α) (scale : ℚ) : PILImage α :=
  let new_width := py_int ((image.width : ℚ) * scale)
  let new_height := py_int ((image.height : ℚ) * scale)
  PILImage.resize rd image new_width new_height Resampling.lanczos

/-- A whole Noobai notebook run: choose the device, load the pipeline
and move it to that device, call `generate_image` with the user inputs,
optionally apply `hires_fix`, then display and save the image.  Returns
the pipeline, the final image, and the event trace. -/
def run {α σ : Type} (rd : α → ℤ → ℤ → Resampling → α)
    (pipeRun : SDPipeline σ → NoobaiCall → ℕ → PILImage α)
    (cuda_available : Bool) (loaded : SDPipeline σ)
    (prompt : String) (steps : ℕ) (seed : ℕ) (guidance_scale : ℚ)
    (height width : ℤ) (apply_hires : Bool) (scale : ℚ)
    (rng : RNGState) : SDPipeline σ × PILImage α × List Ev :=
  let device := noobai_device cuda_available
  let pipe := { loaded with device := device }
  let g := generate_image pipeRun cuda_available pipe prompt steps seed
    guidance_scale height width rng
  let image := g.2.1
  let post : PILImage α × List Ev :=
    if apply_hires then
      (hires_fix rd image scale,
       [Ev.pilResize (py_int ((image.width : ℚ) * scale))
          (py_int ((image.height : ℚ) * scale))])
    else (image, [])
  (pipe, post.1,
   [Ev.deviceChosen device, Ev.loadWeights, Ev.toDevice device]
     ++ g.2.2 ++ post.2 ++ [Ev.imageShow, Ev.imageSave])

/-- The image the pipeline call inside a Noobai run produces, before
any post-processing. -/
def pipe_output {α σ : Type}
    (pipeRun : SDPipeline σ → NoobaiCall → ℕ → PILImage α)
    (cuda_available : Bool) (loaded : SDPipeline σ)
    (prompt : String) (steps : ℕ) (seed : ℕ) (guidance_scale : ℚ)
    (height width : ℤ) (rng : RNGState) : PILImage α :=
  pipeRun { loaded with device := noobai_device cuda_available }
    ⟨prompt, steps, guidance_scale, height, width⟩
    (relevant_torch_seed (set_seed cuda_available seed rng)
      (noobai_device cuda_available))

end Noobai

open V2

/-- A trivial resampling kernel on unit pixel data, used to evaluate
the development on concrete inputs. -/
def wRd : Unit → ℤ → ℤ → Resampling → Unit := fun _ _ _ _ => ()

/-- A concrete diffusion pipeline behaviour for evaluation: it returns
an image of exactly the requested size. -/
def wPipeRun : Vim2.SDXLPipeline Unit Unit → PipeCall → PILImage Unit :=
  fun _ c => ⟨c.width, c.height, ()⟩

/-- A concrete freshly loaded Vim2 pipeline state for evaluation. -/
def wPipe : Vim2.SDXLPipeline Unit Unit :=
  ⟨⟨SchedulerKind.ddim, ()⟩, 77, 77, "cpu", ()⟩

/-- Concrete `generate_image` parameters for evaluation (the source's
default values, with a fixed prompt). -/
def wParams : Vim2.GenParams Unit := { prompt := "test" }

/-- A concrete Noobai pipeline behaviour for evaluation. -/
def wPipeRunN : Noobai.SDPipeline Unit → NoobaiCall → ℕ → PILImage Unit :=
  fun _ c _ => ⟨c.width, c.height, ()⟩

/-- A concrete freshly loaded Noobai pipeline state for evaluation. -/
def wPipeN : Noobai.SDPipeline Unit := ⟨"cpu", ()⟩

/-- A concrete global RNG state for evaluation. -/
def wRng : Noobai.RNGState := ⟨1, 2, 3, 4⟩

/-- Claim C1: every call of `generate_image` forwards prompt, negative
prompt, inference-step count, guidance scale, width and height to the
diffusion pipeline exactly as supplied: in each notebook the run's trace
contains exactly one pipeline invocation, and its arguments are the
caller's parameters unchanged. -/
theorem c1_parameters_forwarded_unchanged
    {α κ σ : Type} (rd : α → ℤ → ℤ → Resampling → α)
    (pipeRun : Vim2.SDXLPipeline κ σ → PipeCall → PILImage α) (cfg : κ)
    (p : Vim2.GenParams α) (pipe : Vim2.SDXLPipeline κ σ) (ambient : ℕ)
    (pipeRunN : Noobai.SDPipeline σ → NoobaiCall → ℕ → PILImage α)
    (ca : Bool) (npipe : Noobai.SDPipeline σ) (prompt : String)
    (steps seed : ℕ) (gs : ℚ) (h w : ℤ) (rng : Noobai.RNGState) :
    ((Vim2.generate_image rd pipeRun cfg p pipe ambient).2.2.filter
        is_pipe_invoke = [Ev.pipeInvoke (Vim2.mkCall p)])
    ∧ ((Noobai.generate_image pipeRunN ca npipe prompt steps seed gs h w
          rng).2.2.filter is_pipe_invoke
        = [Ev.noobaiPipeInvoke ⟨prompt, steps, gs, h, w⟩]) := by
  constructor
  · cases hl : (Vim2.SCHEDULERS cfg).lookup p.scheduler_name <;>
      cases hn : p.negative_prompt.isSome <;>
      cases hf : p.hires_fix <;>
      cases hu : p.upscaler_func <;>
      simp [Vim2.generate_image, Vim2.set_scheduler, hl, hn, hf, hu,
        is_pipe_invoke, Vim2.mkCall, Vim2.torch_generator_manual_seed]
  · simp [Noobai.generate_image, is_pipe_invoke]

/-- Claim C2: for each of the four names `"euler"`, `"euler_ancestral"`,
`"dpm"`, `"ddim"`, `set_scheduler` assigns exactly the `SCHEDULERS`
entry of that name to the pipeline's scheduler field and touches no
other pipeline field (stated as an exact record-update equality), and
`generate_image` called with that scheduler name leaves the module-level
pipeline with exactly that scheduler. -/
theorem c2_scheduler_selection_exact
    {α κ σ : Type} (rd : α → ℤ → ℤ → Resampling → α)
    (pipeRun : Vim2.SDXLPipeline κ σ → PipeCall → PILImage α) (cfg : κ)
    (pl : Vim2.SDXLPipeline κ σ) (p : Vim2.GenParams α)
    (pipe : Vim2.SDXLPipeline κ σ) (ambient : ℕ) :
    (Vim2.set_scheduler cfg pl "euler"
      = ({ pl with scheduler := ⟨SchedulerKind.euler, cfg⟩ },
         [Ev.schedAssign SchedulerKind.euler]))
    ∧ (Vim2.set_scheduler cfg pl "euler_ancestral"
      = ({ pl with scheduler := ⟨SchedulerKind.euler_ancestral, cfg⟩ },
         [Ev.schedAssign SchedulerKind.euler_ancestral]))
    ∧ (Vim2.set_scheduler cfg pl "dpm"
      = ({ pl with scheduler := ⟨SchedulerKind.dpm, cfg⟩ },
         [Ev.schedAssign SchedulerKind.dpm]))
    ∧ (Vim2.set_scheduler cfg pl "ddim"
      = ({ pl with scheduler := ⟨SchedulerKind.ddim, cfg⟩ },
         [Ev.schedAssign SchedulerKind.ddim]))
    ∧ ((Vim2.generate_image rd pipeRun cfg
          { p with scheduler_name := "euler" } pipe ambient).1
      = { pipe with scheduler := ⟨SchedulerKind.euler, cfg⟩ })
    ∧ ((Vim2.generate_image rd pipeRun cfg
          { p with scheduler_name := "euler_ancestral" } pipe ambient).1
      = { pipe with scheduler := ⟨SchedulerKind.euler_ancestral, cfg⟩ })
    ∧ ((Vim2.generate_image rd pipeRun cfg
          { p with scheduler_name := "dpm" } pipe ambient).1
      = { pipe with scheduler := ⟨SchedulerKind.dpm, cfg⟩ })
    ∧ ((Vim2.generate_image rd pipeRun cfg
          { p with scheduler_name := "ddim" } pipe ambient).1
      = { pipe with scheduler := ⟨SchedulerKind.ddim, cfg⟩ }) :=
  ⟨rfl, rfl, rfl, rfl, rfl, rfl, rfl, rfl⟩

/-- Claim C3: with `hires_fix=False` (Vim2) and `apply_hires=False`
(Noobai), the caller receives exactly the pipeline's output image:
no resize event appears in the trace and the result is the pipeline
invocation's value itself, dimensions included. -/
theorem c3_no_hires_returns_pipeline_output
    {α κ σ : Type} (rd : α → ℤ → ℤ → Resampling → α)
    (pipeRun : Vim2.SDXLPipeline κ σ → PipeCall → PILImage α) (cfg : κ)
    (p : Vim2.GenParams α) (pipe : Vim2.SDXLPipeline κ σ) (ambient : ℕ)
    (pipeRunN : Noobai.SDPipeline σ → NoobaiCall → ℕ → PILImage α)
    (ca : Bool) (loaded : Noobai.SDPipeline σ) (prompt : String)
    (steps seed : ℕ) (gs scale : ℚ) (h w : ℤ) (rng : Noobai.RNGState) :
    ((Vim2.generate_image rd pipeRun cfg { p with hires_fix := false }
        pipe ambient).2.1
      = pipeRun (Vim2.set_scheduler cfg pipe p.scheduler_name).1
          (Vim2.mkCall p))
    ∧ ((Vim2.generate_image rd pipeRun cfg { p with hires_fix := false }
          pipe ambient).2.2.all (fun e => !is_resize_ev e) = true)
    ∧ ((Noobai.run rd pipeRunN ca loaded prompt steps seed gs h w false
          scale rng).2.1
      = pipeRunN { loaded with device := Noobai.noobai_device ca }
          ⟨prompt, steps, gs, h, w⟩
          (Noobai.relevant_torch_seed
            (Noobai.set_seed ca seed rng) (Noobai.noobai_device ca)))
    ∧ ((Noobai.run rd pipeRunN ca loaded prompt steps seed gs h w false
          scale rng).2.2.all (fun e => !is_resize_ev e) = true) := by
  refine ⟨rfl, ?_, rfl, ?_⟩
  · cases hl : (Vim2.SCHEDULERS cfg).lookup p.scheduler_name <;>
      cases hn : p.negative_prompt.isSome <;>
      simp [Vim2.generate_image, Vim2.set_scheduler, hl, hn, is_resize_ev]
  · simp [Noobai.run, Noobai.generate_image, is_resize_ev]

/-- Claim C4: when the upscale is applied, the result's size is the
scaled size: Vim2's `generate_image` with `hires_fix=True` and no custom
upscaler returns an image of size
`(int(width * hires_scale), int(height * hires_scale))` computed from
the requested parameters, while Noobai's `hires_fix(image, scale)`
returns an image of size `(int(image.width * scale),
int(image.height * scale))` computed from the input image's own size. -/
theorem c4_hires_scaled_dimensions
    {α κ σ : Type} (rd : α → ℤ → ℤ → Resampling → α)
    (pipeRun : Vim2.SDXLPipeline κ σ → PipeCall → PILImage α) (cfg : κ)
    (p : Vim2.GenParams α) (pipe : Vim2.SDXLPipeline κ σ) (ambient : ℕ)
    (img : PILImage α) (scale : ℚ) :
    ((Vim2.generate_image rd pipeRun cfg
        { p with hires_fix := true, upscaler_func := none }
        pipe ambient).2.1.width
      = py_int ((p.width : ℚ) * p.hires_scale))
    ∧ ((Vim2.generate_image rd pipeRun cfg
          { p with hires_fix := true, upscaler_func := none }
          pipe ambient).2.1.height
      = py_int ((p.height : ℚ) * p.hires_scale))
    ∧ ((Noobai.hires_fix rd img scale).width
      = py_int ((img.width : ℚ) * scale))
    ∧ ((Noobai.hires_fix rd img scale).height
      = py_int ((img.height : ℚ) * scale)) :=
  ⟨rfl, rfl, rfl, rfl⟩

/-- Claim C5: the custom upscaler hook is a placeholder.  Provided the
pipeline's output image has the requested width and height (the
diffusion library's contract), `generate_image` with
`upscaler_func=example_upscaler_func` returns the same image as with
`upscaler_func=None`: both reduce to the same LANCZOS resize. -/
theorem c5_example_upscaler_is_plain_resize
    {α κ σ : Type} (rd : α → ℤ → ℤ → Resampling → α)
    (pipeRun : Vim2.SDXLPipeline κ σ → PipeCall → PILImage α) (cfg : κ)
    (p : Vim2.GenParams α) (pipe : Vim2.SDXLPipeline κ σ) (ambient : ℕ)
    (hw : (pipeRun (Vim2.set_scheduler cfg pipe p.scheduler_name).1
            (Vim2.mkCall p)).width = p.width)
    (hh : (pipeRun (Vim2.set_scheduler cfg pipe p.scheduler_name).1
            (Vim2.mkCall p)).height = p.height) :
    (Vim2.generate_image rd pipeRun cfg
        { p with hires_fix := true,
                 upscaler_func := some (Vim2.example_upscaler_func rd) }
        pipe ambient).2.1
      = (Vim2.generate_image rd pipeRun cfg
          { p with hires_fix := true, upscaler_func := none }
          pipe ambient).2.1 := by
  simp only [Vim2.mkCall] at hw hh
  simp only [Vim2.generate_image, Vim2.example_upscaler_func,
    Vim2.torch_generator_manual_seed]
  rw [hw, hh]
  simp

/-- Witness for C5 at concrete inputs: the dimension hypotheses hold and
the two calls agree. -/
theorem c5_witness :
    ((wPipeRun (Vim2.set_scheduler () wPipe wParams.scheduler_name).1
        (Vim2.mkCall wParams)).width = wParams.width)
    ∧ ((wPipeRun (Vim2.set_scheduler () wPipe wParams.scheduler_name).1
        (Vim2.mkCall wParams)).height = wParams.height)
    ∧ ((Vim2.generate_image wRd wPipeRun ()
          { wParams with hires_fix := true,
                         upscaler_func :=
                           some (Vim2.example_upscaler_func wRd) }
          wPipe 0).2.1
      = (Vim2.generate_image wRd wPipeRun ()
          { wParams with hires_fix := true, upscaler_func := none }
          wPipe 0).2.1) :=
  ⟨rfl, rfl,
   c5_example_upscaler_is_plain_resize wRd wPipeRun () wParams wPipe 0
     rfl rfl⟩

/-- Claim C6: each run is the one linear sequence.  The Noobai run's
trace is exactly: choose device, load weights, move to device, seed,
invoke the pipeline, optionally resize, then display and save.  In
Vim2's `generate_image`, a scheduler assignment occurs strictly before
the pipeline invocation, no resize occurs before the invocation, and the
invocation happens; and the full Vim2 run starts with the CUDA check and
loads weights before any pipeline invocation. -/
theorem c6_linear_pipeline_order
    {α κ σ : Type} (rd : α → ℤ → ℤ → Resampling → α)
    (pipeRun : Vim2.SDXLPipeline κ σ → PipeCall → PILImage α)
    (ca : Bool) (cfg : κ) (loaded : Vim2.SDXLPipeline κ σ)
    (p : Vim2.GenParams α) (ambient : ℕ)
    (pipeRunN : Noobai.SDPipeline σ → NoobaiCall → ℕ → PILImage α)
    (nloaded : Noobai.SDPipeline σ) (prompt : String) (steps seed : ℕ)
    (gs scale : ℚ) (h w : ℤ) (ah : Bool) (rng : Noobai.RNGState) :
    ((Noobai.run rd pipeRunN ca nloaded prompt steps seed gs h w ah
          scale rng).2.2
        = [Ev.deviceChosen (Noobai.noobai_device ca), Ev.loadWeights,
           Ev.toDevice (Noobai.noobai_device ca), Ev.noobaiSetSeed seed,
           Ev.noobaiPipeInvoke ⟨prompt, steps, gs, h, w⟩]
          ++ (if ah then
                [Ev.pilResize
                  (py_int
                    (((Noobai.pipe_output pipeRunN ca nloaded prompt
                        steps seed gs h w rng).width : ℚ) * scale))
                  (py_int
                    (((Noobai.pipe_output pipeRunN ca nloaded prompt
                        steps seed gs h w rng).height : ℚ) * scale))]
              else [])
          ++ [Ev.imageShow, Ev.imageSave])
    ∧ ((before_generation
          (Vim2.generate_image rd pipeRun cfg p
            (Vim2.load_pipeline cfg loaded "euler").1 ambient).2.2).any
        is_sched_assign = true)
    ∧ ((before_generation
          (Vim2.generate_image rd pipeRun cfg p
            (Vim2.load_pipeline cfg loaded "euler").1 ambient).2.2).all
        (fun e => !is_resize_ev e) = true)
    ∧ ((Vim2.generate_image rd pipeRun cfg p
          (Vim2.load_pipeline cfg loaded "euler").1 ambient).2.2.any
        is_pipe_invoke = true)
    ∧ ((Vim2.run rd pipeRun ca cfg loaded p ambient).2.2.head?
        = some (if ca then Ev.cudaOk else Ev.cudaWarn))
    ∧ ((before_generation
          (Vim2.run rd pipeRun ca cfg loaded p ambient).2.2).any
        is_load_ev = true) := by
  refine ⟨?_, ?_, ?_, ?_, ?_, ?_⟩
  · cases ah <;>
      simp [Noobai.run, Noobai.generate_image, Noobai.hires_fix,
        Noobai.pipe_output]
  · cases hl : (Vim2.SCHEDULERS cfg).lookup p.scheduler_name <;>
      cases hn : p.negative_prompt.isSome <;>
      simp [Vim2.generate_image, Vim2.set_scheduler, hl, hn,
        before_generation, is_pipe_invoke, is_sched_assign]
  · cases hl : (Vim2.SCHEDULERS cfg).lookup p.scheduler_name <;>
      cases hn : p.negative_prompt.isSome <;>
      simp [Vim2.generate_image, Vim2.set_scheduler, hl, hn,
        before_generation, is_pipe_invoke, is_resize_ev]
  · cases hl : (Vim2.SCHEDULERS cfg).lookup p.scheduler_name <;>
      cases hn : p.negative_prompt.isSome <;>
      simp [Vim2.generate_image, Vim2.set_scheduler, hl, hn,
        is_pipe_invoke]
  · cases ca <;> simp [Vim2.run, Vim2.check_cuda,
      Vim2.create_scheduler_dict]
  · cases ca <;>
      simp [Vim2.run, Vim2.check_cuda, Vim2.create_scheduler_dict,
        before_generation, is_pipe_invoke, is_load_ev]

/-- Helper: `set_scheduler` changes only the scheduler field; the
tokenizer limits, device and weights of the pipeline are untouched for
every scheduler name, known or not. -/
theorem set_scheduler_touches_only_scheduler
    {κ σ : Type} (cfg : κ) (pl : Vim2.SDXLPipeline κ σ) (n : String) :
    (Vim2.set_scheduler cfg pl n).1.tokenizer_model_max_length
        = pl.tokenizer_model_max_length
    ∧ (Vim2.set_scheduler cfg pl n).1.tokenizer_2_model_max_length
        = pl.tokenizer_2_model_max_length
    ∧ (Vim2.set_scheduler cfg pl n).1.device = pl.device
    ∧ (Vim2.set_scheduler cfg pl n).1.weights = pl.weights := by
  cases hl : (Vim2.SCHEDULERS cfg).lookup n <;>
    simp [Vim2.set_scheduler, hl]

/-- Counterexample to C7: run `Vim2.ipynb` with CUDA unavailable
(concrete trivial pipeline states).  The claim requires the pipeline to
end up on `"cpu"`; the code moves it to `"cuda"` unconditionally
(`load_pipeline` never consults CUDA availability, and `check_cuda`
only prints a warning). -/
theorem c7_counterexample :
    (Vim2.run wRd wPipeRun false () wPipe wParams 0).1.device = "cuda"
    ∧ (Vim2.run wRd wPipeRun false () wPipe wParams 0).1.device ≠ "cpu" := by
  refine ⟨rfl, ?_⟩
  intro hcontra
  simp [Vim2.run, Vim2.generate_image, Vim2.load_pipeline,
    Vim2.set_scheduler, wParams, wPipe, Vim2.SCHEDULERS] at hcontra

/-- Amended C7: the Noobai notebook's pipeline ends up on `"cuda"` when
CUDA is available and on `"cpu"` otherwise; the Vim2 notebook's pipeline
is moved to `"cuda"` unconditionally, `check_cuda` merely printing a
warning when CUDA is unavailable. -/
theorem c7_amended_device_configuration
    {α κ σ : Type} (rd : α → ℤ → ℤ → Resampling → α)
    (pipeRun : Vim2.SDXLPipeline κ σ → PipeCall → PILImage α)
    (ca : Bool) (cfg : κ) (loaded : Vim2.SDXLPipeline κ σ)
    (choice : String) (p : Vim2.GenParams α) (ambient : ℕ)
    (pipeRunN : Noobai.SDPipeline σ → NoobaiCall → ℕ → PILImage α)
    (nloaded : Noobai.SDPipeline σ) (prompt : String) (steps seed : ℕ)
    (gs scale : ℚ) (h w : ℤ) (ah : Bool) (rng : Noobai.RNGState) :
    ((Noobai.run rd pipeRunN ca nloaded prompt steps seed gs h w ah
        scale rng).1.device = (if ca then "cuda" else "cpu"))
    ∧ ((Vim2.load_pipeline cfg loaded choice).1.device = "cuda")
    ∧ ((Vim2.run rd pipeRun ca cfg loaded p ambient).1.device = "cuda")
    ∧ (Vim2.check_cuda false = [Ev.cudaWarn]) := by
  refine ⟨rfl, ?_, ?_, rfl⟩
  · have hfr := set_scheduler_touches_only_scheduler cfg
      ({ loaded with device := "cuda",
                     tokenizer_model_max_length := 1000000,
                     tokenizer_2_model_max_length := 1000000 }) choice
    simpa [Vim2.load_pipeline] using hfr.2.2.1
  · have hfr := set_scheduler_touches_only_scheduler cfg
      (Vim2.load_pipeline cfg loaded "euler").1 p.scheduler_name
    have hload : (Vim2.load_pipeline cfg loaded "euler").1.device
        = "cuda" := by
      have hfr2 := set_scheduler_touches_only_scheduler cfg
        ({ loaded with device := "cuda",
                       tokenizer_model_max_length := 1000000,
                       tokenizer_2_model_max_length := 1000000 }) "euler"
      simpa [Vim2.load_pipeline] using hfr2.2.2.1
    calc (Vim2.run rd pipeRun ca cfg loaded p ambient).1.device
        = (Vim2.load_pipeline cfg loaded "euler").1.device := hfr.2.2.1
      _ = "cuda" := hload

/-- Claim C8: generation is deterministic in its supplied parameters.
Two Vim2 `generate_image` calls with the same parameters but different
ambient torch RNG states give equal images (the fresh generator is
seeded from the seed parameter alone), and two Noobai runs with the same
parameters but different initial global RNG states give equal images
(`set_seed` overwrites the relevant generator state with the seed). -/
theorem c8_deterministic_given_parameters
    {α κ σ : Type} (rd : α → ℤ → ℤ → Resampling → α)
    (pipeRun : Vim2.SDXLPipeline κ σ → PipeCall → PILImage α) (cfg : κ)
    (p : Vim2.GenParams α) (pipe : Vim2.SDXLPipeline κ σ)
    (ambient1 ambient2 : ℕ)
    (pipeRunN : Noobai.SDPipeline σ → NoobaiCall → ℕ → PILImage α)
    (ca : Bool) (nloaded : Noobai.SDPipeline σ) (prompt : String)
    (steps seed : ℕ) (gs scale : ℚ) (h w : ℤ) (ah : Bool)
    (rng1 rng2 : Noobai.RNGState) :
    ((Vim2.generate_image rd pipeRun cfg p pipe ambient1).2.1
      = (Vim2.generate_image rd pipeRun cfg p pipe ambient2).2.1)
    ∧ ((Noobai.run rd pipeRunN ca nloaded prompt steps seed gs h w ah
          scale rng1).2.1
      = (Noobai.run rd pipeRunN ca nloaded prompt steps seed gs h w ah
          scale rng2).2.1) := by
  constructor
  · rfl
  · have hseed : ∀ r : Noobai.RNGState,
        Noobai.relevant_torch_seed (Noobai.set_seed ca seed r)
          (Noobai.noobai_device ca) = seed := by
      intro r
      cases ca <;>
        simp [Noobai.relevant_torch_seed, Noobai.set_seed,
          Noobai.noobai_device]
    simp [Noobai.run, Noobai.generate_image, hseed]

/-- Claim C9: for every scheduler name that is not a key of
`SCHEDULERS`, `set_scheduler` raises no error: it returns normally,
prints a warning, and assigns the `"euler"` scheduler; and
`generate_image` with that name still succeeds — the module pipeline
ends up with the `"euler"` scheduler and the pipeline invocation is
still performed with the caller's parameters. -/
theorem c9_unknown_scheduler_falls_back_to_euler
    {α κ σ : Type} (rd : α → ℤ → ℤ → Resampling → α)
    (pipeRun : Vim2.SDXLPipeline κ σ → PipeCall → PILImage α) (cfg : κ)
    (pl pipe : Vim2.SDXLPipeline κ σ) (p : Vim2.GenParams α)
    (ambient : ℕ) (name : String)
    (hname : (Vim2.SCHEDULERS cfg).lookup name = none) :
    (Vim2.set_scheduler cfg pl name
      = ({ pl with scheduler := ⟨SchedulerKind.euler, cfg⟩ },
         [Ev.schedWarnUnknown, Ev.schedAssign SchedulerKind.euler]))
    ∧ ((Vim2.generate_image rd pipeRun cfg
          { p with scheduler_name := name } pipe ambient).1.scheduler
      = ⟨SchedulerKind.euler, cfg⟩)
    ∧ ((Vim2.generate_image rd pipeRun cfg
          { p with scheduler_name := name } pipe ambient).2.2.filter
        is_pipe_invoke
      = [Ev.pipeInvoke (Vim2.mkCall { p with scheduler_name := name })]) := by
  refine ⟨?_, ?_, ?_⟩
  · simp [Vim2.set_scheduler, hname]
  · simp [Vim2.generate_image, Vim2.set_scheduler, hname]
  · cases hn : p.negative_prompt.isSome <;>
      cases hf : p.hires_fix <;>
      cases hu : p.upscaler_func <;>
      simp [Vim2.generate_image, Vim2.set_scheduler, hname, hn, hf, hu,
        is_pipe_invoke, Vim2.mkCall, Vim2.torch_generator_manual_seed]

/-- Witness for C9 at the concrete unknown name `"plms"`. -/
theorem c9_witness :
    ((Vim2.SCHEDULERS ()).lookup "plms" = none)
    ∧ ((Vim2.set_scheduler () wPipe "plms"
        = ({ wPipe with scheduler := ⟨SchedulerKind.euler, ()⟩ },
           [Ev.schedWarnUnknown, Ev.schedAssign SchedulerKind.euler]))
      ∧ ((Vim2.generate_image wRd wPipeRun ()
            { wParams with scheduler_name := "plms" } wPipe 0).1.scheduler
        = ⟨SchedulerKind.euler, ()⟩)
      ∧ ((Vim2.generate_image wRd wPipeRun ()
            { wParams with scheduler_name := "plms" } wPipe 0).2.2.filter
          is_pipe_invoke
        = [Ev.pipeInvoke
            (Vim2.mkCall { wParams with scheduler_name := "plms" })])) :=
  ⟨by decide,
   c9_unknown_scheduler_falls_back_to_euler wRd wPipeRun () wPipe wPipe
     wParams 0 "plms" (by decide)⟩

/-- Claim C10: `load_pipeline` always leaves both tokenizers'
`model_max_length` at 1000000, and `generate_image` never changes the
tokenizer limits of the pipeline it uses, so every subsequent call runs
with the limit 1000000 rather than the model's default. -/
theorem c10_tokenizer_limits_raised
    {α κ σ : Type} (rd : α → ℤ → ℤ → Resampling → α)
    (pipeRun : Vim2.SDXLPipeline κ σ → PipeCall → PILImage α) (cfg : κ)
    (loaded : Vim2.SDXLPipeline κ σ) (choice : String)
    (p : Vim2.GenParams α) (pipe : Vim2.SDXLPipeline κ σ)
    (ambient : ℕ) :
    ((Vim2.load_pipeline cfg loaded choice).1.tokenizer_model_max_length
      = 1000000)
    ∧ ((Vim2.load_pipeline cfg loaded
          choice).1.tokenizer_2_model_max_length = 1000000)
    ∧ ((Vim2.generate_image rd pipeRun cfg p pipe
          ambient).1.tokenizer_model_max_length
      = pipe.tokenizer_model_max_length)
    ∧ ((Vim2.generate_image rd pipeRun cfg p pipe
          ambient).1.tokenizer_2_model_max_length
      = pipe.tokenizer_2_model_max_length) := by
  have h1 := set_scheduler_touches_only_scheduler cfg
    ({ loaded with device := "cuda",
                   tokenizer_model_max_length := 1000000,
                   tokenizer_2_model_max_length := 1000000 }) choice
  have h2 := set_scheduler_touches_only_scheduler cfg pipe
    p.scheduler_name
  refine ⟨?_, ?_, h2.1, h2.2.1⟩
  · simpa [Vim2.load_pipeline] using h1.1
  · simpa [Vim2.load_pipeline] using h1.2.1
